import Mathlib

/-!
Verification development for the eufy-security-python monitoring service.

The definitions below are a shallow embedding of the relevant source files:
  - src/services/camera_registry.py       (CameraRegistry)
  - src/models/events.py                  (pydantic event models)
  - src/services/state_timeout_checker.py (StateTimeoutChecker)
  - src/services/device_health_checker.py (DeviceHealthChecker)
  - src/clients/websocket_client.py       (WebSocketClient)

Timestamps are modelled as integers (seconds); python datetime arithmetic on
timezone-aware values corresponds to integer subtraction.  Python dicts keyed
by device serial are modelled as functions from String to Option.  Stateful
methods become state-passing functions; a method that can raise returns the
exception information explicitly alongside the state at the moment the
exception propagates.
-/

namespace EufySecurity

/-- Update a serial-keyed dict at one key (python d[k] = v). -/
def mapSet {α : Type} (m : String → Option α) (sn : String) (v : α) : String → Option α :=
  fun k => if k = sn then some v else m k

/-- Remove a key from a serial-keyed dict (python del d[k] / d.pop(k, None)). -/
def mapRemove {α : Type} (m : String → Option α) (sn : String) : String → Option α :=
  fun k => if k = sn then none else m k

/-! ## Camera registry (src/services/camera_registry.py) -/

/-- CameraInfo dataclass (camera_registry.py lines 22-28). -/
structure CameraInfo where
  device_sn : String
  slack_channel : String
  latest_activity : Int
  state : String
deriving DecidableEq

/-- State of a CameraRegistry instance: the in-memory dict of cameras
(insertion-ordered, modelled as a list) and the persisted CSV file contents
(rewritten in full by save()). -/
structure RegState where
  cameras : List CameraInfo
  persisted : List CameraInfo
deriving DecidableEq

namespace CameraRegistry

/-- CameraRegistry.get_camera (lines 103-106): lookup by serial number. -/
def get_camera (st : RegState) (sn : String) : Option CameraInfo :=
  st.cameras.find? (fun c => c.device_sn == sn)

/-- CameraRegistry.save (lines 82-101): full rewrite of the CSV file from the
in-memory dict.  A failed write is logged and swallowed in the source; the
model tracks the successful-write behaviour, which is the only one the claims
quantify over. -/
def save (st : RegState) : RegState :=
  { st with persisted := st.cameras }

/-- CameraRegistry.update_activity (lines 108-127): if the serial is not in
the registry the method returns from inside the lock, skipping save();
otherwise latest_activity is updated and save() rewrites the file. -/
def update_activity (st : RegState) (sn : String) (activity_time : Int) : RegState :=
  if (get_camera st sn).isSome then
    let cameras1 := st.cameras.map
      (fun c => if c.device_sn == sn then { c with latest_activity := activity_time } else c)
    save { st with cameras := cameras1 }
  else st

/-- CameraRegistry.set_state (lines 129-152).  The first component is the
raised ValueError (if any); the second is the registry state afterward.  An
invalid state raises before the lock is taken, so nothing is mutated; a serial
missing from the registry returns from inside the lock, skipping save(). -/
def set_state (st : RegState) (sn : String) (state : String) :
    Option String × RegState :=
  if state ≠ "open" ∧ state ≠ "closed" then
    (some "ValueError: Invalid state", st)
  else if (get_camera st sn).isSome then
    let cameras1 := st.cameras.map
      (fun c => if c.device_sn == sn then { c with state := state } else c)
    (none, save { st with cameras := cameras1 })
  else (none, st)

/-- CameraRegistry.get_cameras_by_state (lines 159-162). -/
def get_cameras_by_state (st : RegState) (state : String) : List CameraInfo :=
  st.cameras.filter (fun c => c.state == state)

end CameraRegistry

/-! ## Event models (src/models/events.py) -/

/-- An inbound motion notification as seen by the motion handler: the event
dict delivered by the websocket layer. -/
structure MotionNotification where
  serialNumber : Option String
  eventKind : String
deriving DecidableEq

/-- MotionDetectedEvent (events.py lines 24-33).  The optional
device_name/event_type fields are omitted as no claim touches them;
raw_event carries the full notification payload. -/
structure MotionDetectedEvent where
  event : String := "motion_detected"
  timestamp : Int
  device_sn : String
  slack_channel : String
  state : String
  latest_activity : Int
  raw_event : Option MotionNotification := none
deriving DecidableEq

/-- One entry of the per-device motion event log buffer, shape
(timestamp, event_type, serial_number) as asserted in
tests/test_state_timeout_checker.py. -/
structure MotionLogEntry where
  timestamp : Int
  event_type : String
  serial_number : String
deriving DecidableEq

/-- MotionStoppedEvent (events.py lines 36-43).  Note: the pydantic model
declares NO event_log field - device_sn, slack_channel, state, duration_seconds
and latest_activity are its only declared fields beyond the BaseEvent ones. -/
structure MotionStoppedEvent where
  event : String := "motion_stopped"
  timestamp : Int
  device_sn : String
  slack_channel : String
  state : String := "closed"
  duration_seconds : Int
  latest_activity : Int
deriving DecidableEq

/-- Construction of the motion_stopped webhook payload exactly as
state_timeout_checker.py lines 138-145 performs it: the call passes an
event_log keyword argument, but MotionStoppedEvent declares no such field, so
pydantic (default config, extra fields ignored) silently drops it.  The
event_log parameter is therefore unused in the produced payload, mirroring the
source. -/
def mkMotionStoppedEvent (now : Int) (device_sn slack_channel : String)
    (duration_seconds latest_activity : Int)
    (event_log : List MotionLogEntry) : MotionStoppedEvent :=
  { timestamp := now
    device_sn := device_sn
    slack_channel := slack_channel
    duration_seconds := duration_seconds
    latest_activity := latest_activity }

/-! ## Motion state machine (MotionAlarmHandler, registry/open-closed version)

The registry-based MotionAlarmHandler that state_timeout_checker.py calls into
(its get_and_clear_event_log method and the open/closed on_motion_detected
logic) is not present in the source tree: the checked-in
src/handlers/motion_handler.py is an older video-recorder variant that has no
get_and_clear_event_log and never touches the camera registry (it even imports
src.services.video_recorder, which no longer exists).  Those two operations
are therefore modelled from the spec below. -/

/-- State owned by the motion handler: the per-device motion event log
buffer (serial to ordered list of entries). -/
structure MotionHandlerState where
  event_logs : String → List MotionLogEntry

/-- Modelled from the spec: MotionAlarmHandler.get_and_clear_event_log, the
drain operation used by the timeout sweep ("buffers intermediate activity",
"drained exactly once when the device closes").  Returns the accumulated
buffer for the device and leaves the buffer empty. -/
def get_and_clear_event_log (mh : MotionHandlerState) (sn : String) :
    List MotionLogEntry × MotionHandlerState :=
  (mh.event_logs sn, { event_logs := fun k => if k = sn then [] else mh.event_logs k })

/-- Modelled from the spec: MotionAlarmHandler.on_motion_detected, the
registry-based open/closed version (spec section 4.3).  Unknown serial: drop,
mutate nothing.  Closed device: transition to open via the registry, emit one
"opened" alert carrying destination, full notification payload, new state and
activity time, seed a fresh one-element log buffer, persist state and activity.
Open device: no alert, append a log entry, persist the activity timestamp
only.  Registry mutations go through the authoritative CameraRegistry
embedding above. -/
def on_motion_detected (reg : RegState) (mh : MotionHandlerState) (now : Int)
    (notif : MotionNotification) :
    RegState × MotionHandlerState × List MotionDetectedEvent :=
  match notif.serialNumber with
  | none => (reg, mh, [])
  | some sn =>
    match CameraRegistry.get_camera reg sn with
    | none => (reg, mh, [])
    | some cam =>
      if cam.state == "closed" then
        let reg1 := (CameraRegistry.set_state reg sn "open").2
        let reg2 := CameraRegistry.update_activity reg1 sn now
        let entry : MotionLogEntry := ⟨now, notif.eventKind, sn⟩
        let mh1 : MotionHandlerState :=
          { event_logs := fun k => if k = sn then [entry] else mh.event_logs k }
        let ev : MotionDetectedEvent :=
          { timestamp := now
            device_sn := sn
            slack_channel := cam.slack_channel
            state := "open"
            latest_activity := now
            raw_event := some notif }
        (reg2, mh1, [ev])
      else
        let reg1 := CameraRegistry.update_activity reg sn now
        let entry : MotionLogEntry := ⟨now, notif.eventKind, sn⟩
        let mh1 : MotionHandlerState :=
          { event_logs := fun k => if k = sn then mh.event_logs sn ++ [entry] else mh.event_logs k }
        (reg1, mh1, [])

/-! ## Timeout sweep (src/services/state_timeout_checker.py) -/

/-- One record passed to ErrorLogger.log_failed_retry by the timeout sweep's
except branch (state_timeout_checker.py lines 154-159). -/
structure FailedRetryRecord where
  operation : String
  device_sn : String
  duration_seconds : Int
  retry_count : Int
deriving DecidableEq

/-- StateTimeoutChecker._transition_to_closed (lines 114-159).  The boolean
send_fails says whether workato_webhook.send_event raises after exhausting its
retries; that send is the only step of the try block that can raise in the
embedded semantics.  Output: registry state, motion handler state, sent
motion_stopped webhooks, error-sink records.  Faithful to the source order:
the camera is fetched, set_state("closed") commits, the event log is drained,
and only then is the webhook sent; a raise lands in the except branch, which
reports to the error sink and returns. -/
def transition_to_closed (send_fails : Bool) (now : Int) (reg : RegState)
    (mh : MotionHandlerState) (device_sn : String) (duration_seconds : Int) :
    RegState × MotionHandlerState × List MotionStoppedEvent × List FailedRetryRecord :=
  match CameraRegistry.get_camera reg device_sn with
  | none => (reg, mh, [], [])
  | some camera =>
    let reg1 := (CameraRegistry.set_state reg device_sn "closed").2
    let drained := get_and_clear_event_log mh device_sn
    let event := mkMotionStoppedEvent now device_sn camera.slack_channel
      duration_seconds camera.latest_activity drained.1
    if send_fails then
      (reg1, drained.2, [], [⟨"state_timeout_close", device_sn, duration_seconds, 3⟩])
    else
      (reg1, drained.2, [event], [])

/-- StateTimeoutChecker._check_timeouts (lines 93-112): snapshot the cameras
in state "open", and for each one whose elapsed time since latest_activity is
at least timeout_minutes, run the close transition, threading registry and
buffer state through the loop. -/
def check_timeouts (send_fails : String → Bool) (now : Int) (timeout_minutes : Int)
    (reg : RegState) (mh : MotionHandlerState) :
    RegState × MotionHandlerState × List MotionStoppedEvent × List FailedRetryRecord :=
  let open_cameras := CameraRegistry.get_cameras_by_state reg "open"
  open_cameras.foldl
    (fun acc camera =>
      let time_since_activity := now - camera.latest_activity
      if timeout_minutes * 60 ≤ time_since_activity then
        let r := transition_to_closed (send_fails camera.device_sn) now acc.1 acc.2.1
          camera.device_sn time_since_activity
        (r.1, r.2.1, acc.2.2.1 ++ r.2.2.1, acc.2.2.2 ++ r.2.2.2)
      else acc)
    (reg, mh, [], [])

/-! ## Health monitor (src/services/device_health_checker.py) -/

/-- A well-formed command response frame as consumed by the health checker:
success flag, optional errorCode, and the battery property extracted from
result.properties.battery when present. -/
structure Resp where
  success : Bool
  errorCode : Option String := none
  battery : Option Int := none
deriving DecidableEq

/-- Configuration of DeviceHealthChecker (constructor, lines 33-64). -/
structure HealthConfig where
  failure_threshold : Nat
  battery_threshold_percent : Int
  battery_cooldown_hours : Int
deriving DecidableEq

/-- Mutable state of DeviceHealthChecker: failure_counts,
offline_devices_timestamps, last_battery_alert, and the persisted offline
file mirrored by _save_offline_devices. -/
structure HealthState where
  failure_counts : String → Option Nat
  offline_devices_timestamps : String → Option Int
  last_battery_alert : String → Option Int
  persisted_offline : String → Option Int

/-- Alerts emitted by the health checker through the Workato webhook
(CameraOfflineEvent and LowBatteryEvent of events.py). -/
inductive HealthAlert
  | cameraOffline (device_sn slack_channel reason : String)
  | lowBattery (device_sn slack_channel : String) (battery_level : Int)
deriving DecidableEq

/-- True exactly for the lowBattery alert constructor. -/
def HealthAlert.isLowBattery : HealthAlert → Bool
  | .lowBattery _ _ _ => true
  | _ => false

namespace DeviceHealthChecker

/-- DeviceHealthChecker._save_offline_devices (lines 96-111): rewrite the
persisted offline document from the in-memory dict. -/
def save_offline_devices (st : HealthState) : HealthState :=
  { st with persisted_offline := st.offline_devices_timestamps }

/-- DeviceHealthChecker._send_low_battery_alert (lines 354-395): the
per-device cooldown gate, then the alert and the cooldown stamp. -/
def send_low_battery_alert (cfg : HealthConfig) (now : Int) (sn slack : String)
    (battery_level : Int) (st : HealthState) : HealthState × List HealthAlert :=
  match st.last_battery_alert sn with
  | some last =>
    if now - last < cfg.battery_cooldown_hours * 3600 then (st, [])
    else
      ({ st with last_battery_alert := mapSet st.last_battery_alert sn now },
       [.lowBattery sn slack battery_level])
  | none =>
      ({ st with last_battery_alert := mapSet st.last_battery_alert sn now },
       [.lowBattery sn slack battery_level])

/-- The unconditional first half of _handle_online_response (lines 276-285):
delete the failure counter if present, and delete any offline record, saving
the offline document when a record was removed.  These mutations happen before
the response body is inspected, so they also occur when the method is invoked
with a None response (standalone battery-fetch timeout) right before the
AttributeError is raised. -/
def handle_online_mutations (sn : String) (st : HealthState) : HealthState :=
  let st1 := { st with failure_counts := mapRemove st.failure_counts sn }
  if (st1.offline_devices_timestamps sn).isSome then
    save_offline_devices
      { st1 with offline_devices_timestamps := mapRemove st1.offline_devices_timestamps sn }
  else st1

/-- DeviceHealthChecker._handle_online_response (lines 267-299) for a dict
response: clear failure counter and offline record, then inspect the battery
level and possibly emit a low-battery alert.  No recovery alert exists. -/
def handle_online_response (cfg : HealthConfig) (now : Int) (sn slack : String)
    (r : Resp) (st : HealthState) : HealthState × List HealthAlert :=
  let st1 := handle_online_mutations sn st
  match r.battery with
  | some battery_level =>
    if battery_level < cfg.battery_threshold_percent then
      send_low_battery_alert cfg now sn slack battery_level st1
    else (st1, [])
  | none => (st1, [])

/-- DeviceHealthChecker._handle_failure (lines 301-352): increment the
failure counter; once it is at least the threshold and no offline record
exists, emit one offline alert and persist a record stamped with now.  The
device_not_found branch (lines 312-332) and the general branch (lines
334-352) perform the same state updates and alert emission, differing only in
log messages, so the embedding shares one body; the error_code argument is
kept for faithfulness of the call sites. -/
def handle_failure (cfg : HealthConfig) (now : Int) (sn slack : String)
    (error_code : Option String) (st : HealthState) : HealthState × List HealthAlert :=
  let c := (st.failure_counts sn).getD 0 + 1
  let st1 := { st with failure_counts := mapSet st.failure_counts sn c }
  if cfg.failure_threshold ≤ c then
    match st1.offline_devices_timestamps sn with
    | none =>
      let st2 := save_offline_devices
        { st1 with offline_devices_timestamps := mapSet st1.offline_devices_timestamps sn now }
      (st2, [.cameraOffline sn slack "health_check_failed"])
    | some _ => (st1, [])
  else (st1, [])

/-- Python str.startswith, modelled on the character list so that it
evaluates by kernel reduction. -/
def starts_with_chars (s pre : String) : Bool :=
  s.data.take pre.data.length == pre.data

/-- Serial-prefix test for standalone cameras (line 201):
sn.startswith("T8B0") or sn.startswith("T8150"). -/
def is_standalone (sn : String) : Bool :=
  starts_with_chars sn "T8B0" || starts_with_chars sn "T8150"

/-- Environment input for one _check_camera_health call: what the channel
returns for the station.connect probe (standalone only), the
device.get_properties probe, and whether a transport exception escapes the
probe exchange itself (caught at lines 259-265 and turned into a failure). -/
structure ProbeInput where
  connect_resp : Option Resp := none
  battery_resp : Option Resp := none
  resp : Option Resp := none
  send_raises : Bool := false
deriving DecidableEq

/-- The try block of _check_camera_health (lines 198-265), after the cooldown
gate.  Standalone devices: a successful station.connect is followed by the
battery fetch; if that fetch yields no response, _handle_online_response is
invoked with None, which performs its counter/record mutations and then
raises at response.get, landing in the outer except that calls
_handle_failure(..., "exception").  Failures dispatch to _handle_failure with
the response's errorCode, or "p2p_connection_timeout" / "no_response" when no
response arrived. -/
def check_camera_health_probe (cfg : HealthConfig) (now : Int) (sn slack : String)
    (p : ProbeInput) (st : HealthState) : HealthState × List HealthAlert :=
  if p.send_raises then handle_failure cfg now sn slack (some "exception") st
  else if is_standalone sn then
    match p.connect_resp with
    | some r =>
      if r.success then
        match p.battery_resp with
        | some b => handle_online_response cfg now sn slack b st
        | none => handle_failure cfg now sn slack (some "exception") (handle_online_mutations sn st)
      else handle_failure cfg now sn slack r.errorCode st
    | none => handle_failure cfg now sn slack (some "p2p_connection_timeout") st
  else
    match p.resp with
    | some r =>
      if r.success then handle_online_response cfg now sn slack r st
      else handle_failure cfg now sn slack r.errorCode st
    | none => handle_failure cfg now sn slack (some "no_response") st

/-- DeviceHealthChecker._check_camera_health (lines 168-265): the 24-hour
offline cooldown gate (skip inside the window; on expiry remove the record,
save, reset the failure counter), then the probe exchange. -/
def check_camera_health (cfg : HealthConfig) (now : Int) (sn slack : String)
    (p : ProbeInput) (st : HealthState) : HealthState × List HealthAlert :=
  match st.offline_devices_timestamps sn with
  | some last =>
    if now - last < 86400 then (st, [])
    else
      let st1 := save_offline_devices
        { st with offline_devices_timestamps := mapRemove st.offline_devices_timestamps sn }
      let st2 := { st1 with failure_counts := mapRemove st1.failure_counts sn }
      check_camera_health_probe cfg now sn slack p st2
  | none => check_camera_health_probe cfg now sn slack p st

/-- States of the health monitor reachable from construction (failure_counts
starts empty at line 67; the offline map is whatever _load_offline_devices
read back from disk) by any sequence of _check_camera_health invocations. -/
inductive Reachable (cfg : HealthConfig) : HealthState → Prop
  | init (records : String → Option Int) (lb : String → Option Int) :
      Reachable cfg ⟨fun _ => none, records, lb, records⟩
  | step (st : HealthState) (now : Int) (sn slack : String) (p : ProbeInput) :
      Reachable cfg st → Reachable cfg (check_camera_health cfg now sn slack p st).1

end DeviceHealthChecker

/-- A run of k consecutive probe failures for one device: k successive
invocations of _handle_failure at times t 0, ..., t (k-1), threading the
monitor state and collecting the emitted alerts in order. -/
def failure_iter (cfg : HealthConfig) (t : Nat → Int) (sn slack : String)
    (code : Option String) (st : HealthState) : Nat → HealthState × List HealthAlert
  | 0 => (st, [])
  | k+1 =>
    let prev := failure_iter cfg t sn slack code st k
    let step := DeviceHealthChecker.handle_failure cfg (t k) sn slack code prev.1
    (step.1, prev.2 ++ step.2)

/-- The health-monitor invariant of C6: a failure counter present at or above
the configured threshold implies an offline record for that device. -/
def HealthInv (cfg : HealthConfig) (st : HealthState) : Prop :=
  ∀ sn c, st.failure_counts sn = some c → cfg.failure_threshold ≤ c →
    (st.offline_devices_timestamps sn).isSome = true

/-! ## Command/event channel (src/clients/websocket_client.py) -/

/-- An inbound frame; data stands for the rest of the payload, so that
distinct responses are distinguishable. -/
structure Frame where
  type : String
  messageId : Option String := none
  data : String := ""
deriving DecidableEq

/-- One entry of the pending-request table: an unresolved waiter, or a waiter
whose future already holds a response. -/
inductive FutureState
  | waiting
  | resolved (response : Frame)
deriving DecidableEq

namespace WebSocketClient

/-- Effect of WebSocketClient._handle_event (lines 194-250) on the
pending-request table.  A frame of type "result" (lines 200-211) resolves the
pending waiter matching its messageId with the entire frame; a
missing/empty/unknown id, or a waiter whose future is already done, leaves the
table unchanged.  Frames of any other type only dispatch event handlers and
never touch the pending-request table. -/
def handle_event_pending (pending_requests : String → Option FutureState)
    (fr : Frame) : String → Option FutureState :=
  if fr.type == "result" then
    match fr.messageId with
    | some mid =>
      if mid == "" then pending_requests
      else
        match pending_requests mid with
        | some .waiting => mapSet pending_requests mid (.resolved fr)
        | some (.resolved _) => pending_requests
        | none => pending_requests
    | none => pending_requests
  else pending_requests

/-- Outcome of the awaited exchange in _send_command_with_response: the
future resolves within the timeout, the wait times out, or the send (or the
wait machinery) raises. -/
inductive AwaitOutcome
  | resolvedWith (response : Frame)
  | timedOut
  | sendRaised
deriving DecidableEq

/-- WebSocketClient._send_command_with_response (lines 117-142): register a
waiter under the fresh message_id, send, await with timeout.  Success returns
the resolved response; a timeout returns None (modelled Except.ok none); an
exception propagates (Except.error).  The finally block pops the pending
entry on every one of the three exit paths. -/
def send_command_with_response (pending_requests : String → Option FutureState)
    (message_id : String) (outcome : AwaitOutcome) :
    Except Unit (Option Frame) × (String → Option FutureState) :=
  let registered := mapSet pending_requests message_id .waiting
  match outcome with
  | .resolvedWith r => (Except.ok (some r), mapRemove registered message_id)
  | .timedOut => (Except.ok none, mapRemove registered message_id)
  | .sendRaised => (Except.error (), mapRemove registered message_id)

/-- Exceptions send_command can surface to its caller. -/
inductive SendExn
  | connectionError
  | transportError
deriving DecidableEq

/-- WebSocketClient.send_command (lines 93-115): with no transport handle it
raises ConnectionError before doing anything, in both modes; otherwise it
either runs the correlated send or the fire-and-forget send (ff_raises: the
retry budget of _send_command_with_retry is exhausted).  The third component
lists the commands that were successfully written to the wire. -/
def send_command (ws_connected : Bool) (pending_requests : String → Option FutureState)
    (command : String) (wait_response : Bool) (message_id : String)
    (outcome : AwaitOutcome) (ff_raises : Bool) :
    Except SendExn (Option Frame) × (String → Option FutureState) × List String :=
  if ws_connected = false then
    (Except.error .connectionError, pending_requests, [])
  else if wait_response then
    match send_command_with_response pending_requests message_id outcome with
    | (Except.ok r, p) =>
      (Except.ok r, p, if outcome == .sendRaised then [] else [command])
    | (Except.error _, p) => (Except.error .transportError, p, [])
  else if ff_raises then (Except.error .transportError, pending_requests, [])
  else (Except.ok none, pending_requests, [command])

end WebSocketClient

/-! ## Concrete fixtures used by counterexamples and witnesses -/

/-- A registry holding one open camera CAM1, last active at t = 100, with the
persisted file in sync. -/
def reg0 : RegState :=
  ⟨[⟨"CAM1", "chan", 100, "open"⟩], [⟨"CAM1", "chan", 100, "open"⟩]⟩

/-- A buffered event log of two motion notifications for CAM1. -/
def log0 : List MotionLogEntry :=
  [⟨200, "motion_detected", "CAM1"⟩, ⟨300, "motion_detected", "CAM1"⟩]

/-- Motion handler state whose buffer for CAM1 is log0. -/
def mh0 : MotionHandlerState := ⟨fun k => if k = "CAM1" then log0 else []⟩

/-- Motion handler state with every buffer empty. -/
def mhEmpty : MotionHandlerState := ⟨fun _ => []⟩

/-- A health-monitor state with all maps empty. -/
def hs0 : HealthState := ⟨fun _ => none, fun _ => none, fun _ => none, fun _ => none⟩

/-- A registry holding one closed camera CAM2. -/
def regClosed : RegState :=
  ⟨[⟨"CAM2", "ch2", 50, "closed"⟩], [⟨"CAM2", "ch2", 50, "closed"⟩]⟩

/-- A motion notification for CAM2. -/
def notif0 : MotionNotification := ⟨some "CAM2", "motion detected"⟩

/-- Health-checker configuration used by witnesses: threshold 3, battery
threshold 30 percent, battery cooldown 24 h. -/
def cfgW : HealthConfig := ⟨3, 30, 24⟩

/-- Failure times used by the C5 witness. -/
def tW : Nat → Int := fun i => 1000 + Int.ofNat i

/-- A health state where standalone camera T8B0XYZ has an expired offline
record (stamped at time 0) and a failure counter at the threshold. -/
def hsW : HealthState :=
  ⟨fun k => if k = "T8B0XYZ" then some 3 else none,
   fun k => if k = "T8B0XYZ" then some 0 else none,
   fun _ => none,
   fun k => if k = "T8B0XYZ" then some 0 else none⟩

/-- Probe input for a standalone camera whose connect probe succeeds and
whose battery fetch returns 50 percent. -/
def pW : DeviceHealthChecker.ProbeInput :=
  ⟨some ⟨true, none, none⟩, some ⟨true, none, some 50⟩, none, false⟩

/-! ## Claim theorems -/

/-- C10: calling send on the channel while no transport handle is present
raises a ConnectionError, in both the response-awaiting and fire-and-forget
modes, without registering any pending-request entry and without sending
anything on the wire. -/
theorem send_command_not_connected_raises :
    ∀ (pending : String → Option FutureState) (command : String) (wait_response : Bool)
      (message_id : String) (outcome : WebSocketClient.AwaitOutcome) (ff_raises : Bool),
      WebSocketClient.send_command false pending command wait_response message_id outcome ff_raises
        = (Except.error .connectionError, pending, []) := by
  intro pending command wait_response message_id outcome ff_raises
  rfl

/-- C8: a response-awaiting send returns the resolved response payload when
the correlated response arrives within the timeout, a null result on timeout,
and propagates the exception otherwise; on every one of the three exit paths
the pending-request entry for the correlation id is absent afterward. -/
theorem send_with_response_cleanup_all_paths :
    ∀ (pending : String → Option FutureState) (message_id : String),
      (∀ r, (WebSocketClient.send_command_with_response pending message_id
              (.resolvedWith r)).1 = Except.ok (some r))
    ∧ (WebSocketClient.send_command_with_response pending message_id .timedOut).1
        = Except.ok none
    ∧ (WebSocketClient.send_command_with_response pending message_id .sendRaised).1
        = Except.error ()
    ∧ ∀ outcome, (WebSocketClient.send_command_with_response pending message_id outcome).2
        message_id = none := by
  intro pending message_id
  refine ⟨fun r => rfl, rfl, rfl, fun outcome => ?_⟩
  cases outcome <;> simp [WebSocketClient.send_command_with_response, mapRemove]

/-- C7: an inbound frame of kind "result" whose correlation id matches a
pending waiter resolves that waiter - and only that waiter - with exactly that
frame; if the id is missing, empty, unknown, or its waiter is already done
(expired), the pending-request table is left unchanged. -/
theorem result_frame_resolves_matching_waiter :
    ∀ (pending : String → Option FutureState) (fr : Frame),
      fr.type = "result" →
      (∀ mid, fr.messageId = some mid → (mid == "") = false →
        pending mid = some .waiting →
        WebSocketClient.handle_event_pending pending fr mid = some (.resolved fr)
        ∧ ∀ k, k ≠ mid → WebSocketClient.handle_event_pending pending fr k = pending k)
    ∧ (∀ mid, fr.messageId = some mid → pending mid = none →
        WebSocketClient.handle_event_pending pending fr = pending)
    ∧ (∀ mid r, fr.messageId = some mid → pending mid = some (.resolved r) →
        WebSocketClient.handle_event_pending pending fr = pending)
    ∧ (∀ mid, fr.messageId = some mid → (mid == "") = true →
        WebSocketClient.handle_event_pending pending fr = pending)
    ∧ (fr.messageId = none →
        WebSocketClient.handle_event_pending pending fr = pending) := by
  intro pending fr ht
  have htb : (fr.type == "result") = true := by
    simp [ht]
  refine ⟨?_, ?_, ?_, ?_, ?_⟩
  · intro mid hm hne hw
    constructor
    · simp [WebSocketClient.handle_event_pending, htb, hm, hne, hw, mapSet]
    · intro k hk
      simp [WebSocketClient.handle_event_pending, htb, hm, hne, hw, mapSet, hk]
  · intro mid hm hn
    simp [WebSocketClient.handle_event_pending, htb, hm, hn]
  · intro mid r hm hr
    simp [WebSocketClient.handle_event_pending, htb, hm, hr]
  · intro mid hm he
    simp [WebSocketClient.handle_event_pending, htb, hm, he]
  · intro hm
    simp [WebSocketClient.handle_event_pending, htb, hm]

/-- Witness for C7: a concrete table with one waiter under "m1"; a result
frame with id "m1" resolves it with the whole frame, and a result frame with
unknown id "zz" changes nothing. -/
theorem result_frame_resolves_matching_waiter_witness :
    WebSocketClient.handle_event_pending
        (fun k => if k = "m1" then some FutureState.waiting else none)
        ⟨"result", some "m1", "payload"⟩ "m1"
      = some (.resolved ⟨"result", some "m1", "payload"⟩)
    ∧ WebSocketClient.handle_event_pending
        (fun k => if k = "m1" then some FutureState.waiting else none)
        ⟨"result", some "zz", "other"⟩
      = (fun k => if k = "m1" then some FutureState.waiting else none) := by
  constructor
  · exact ((result_frame_resolves_matching_waiter
      (fun k => if k = "m1" then some FutureState.waiting else none)
      ⟨"result", some "m1", "payload"⟩ rfl).1 "m1" rfl (by decide) (by simp)).1
  · exact (result_frame_resolves_matching_waiter
      (fun k => if k = "m1" then some FutureState.waiting else none)
      ⟨"result", some "zz", "other"⟩ rfl).2.1 "zz" rfl (by simp)

/-- C9: setting a camera state to a value that is neither "open" nor
"closed" raises a ValueError before any mutation, leaving the in-memory
registry and the persisted file unchanged; and set_state or update_activity
for a serial not in the registry mutates nothing and does not rewrite the
persisted file. -/
theorem set_state_invalid_and_missing_serial_no_mutation :
    ∀ (st : RegState) (sn v : String) (t : Int),
      (v ≠ "open" → v ≠ "closed" →
        CameraRegistry.set_state st sn v = (some "ValueError: Invalid state", st))
    ∧ (CameraRegistry.get_camera st sn = none →
        (CameraRegistry.set_state st sn v).2 = st
        ∧ CameraRegistry.update_activity st sn t = st) := by
  intro st sn v t
  constructor
  · intro h1 h2
    simp [CameraRegistry.set_state, h1, h2]
  · intro h
    constructor
    · by_cases hv : v ≠ "open" ∧ v ≠ "closed"
      · simp [CameraRegistry.set_state, hv]
      · simp [CameraRegistry.set_state, hv, h]
    · simp [CameraRegistry.update_activity, h]

/-- Witness for C9: the invalid value "ajar" raises and mutates nothing on
reg0, and the unknown serial "NOPE" mutates nothing in either method. -/
theorem set_state_invalid_and_missing_serial_no_mutation_witness :
    CameraRegistry.set_state reg0 "CAM1" "ajar" = (some "ValueError: Invalid state", reg0)
    ∧ (CameraRegistry.set_state reg0 "NOPE" "open").2 = reg0
    ∧ CameraRegistry.update_activity reg0 "NOPE" 5 = reg0 := by
  refine ⟨?_, ?_, ?_⟩
  · exact (set_state_invalid_and_missing_serial_no_mutation reg0 "CAM1" "ajar" 5).1
      (by decide) (by decide)
  · exact ((set_state_invalid_and_missing_serial_no_mutation reg0 "NOPE" "open" 5).2
      (by decide)).1
  · exact ((set_state_invalid_and_missing_serial_no_mutation reg0 "NOPE" "open" 5).2
      (by decide)).2

/-- Updating every list entry whose device_sn matches, by a function that
preserves device_sn, commutes with lookup by serial. -/
theorem find?_map_keyed (l : List CameraInfo) (sn : String) (f : CameraInfo → CameraInfo)
    (hf : ∀ c, (f c).device_sn = c.device_sn) :
    (l.map fun c => if c.device_sn == sn then f c else c).find? (fun c => c.device_sn == sn)
      = (l.find? fun c => c.device_sn == sn).map f := by
  induction l with
  | nil => simp
  | cons c l ih =>
    rw [List.map_cons]
    by_cases h : (c.device_sn == sn) = true
    · have hfc : ((f c).device_sn == sn) = true := by
        rw [hf c]; exact h
      rw [if_pos h]
      simp [List.find?_cons, hfc, h]
    · have h' : (c.device_sn == sn) = false := by
        simpa using h
      rw [if_neg h]
      rw [List.find?_cons, List.find?_cons, h']
      exact ih

/-- Looking up the serial after a successful set_state to a valid value
returns the camera with the state replaced. -/
theorem get_camera_after_set_state (st : RegState) (sn : String) (cam : CameraInfo)
    (h : CameraRegistry.get_camera st sn = some cam) (v : String)
    (hv : v = "open" ∨ v = "closed") :
    CameraRegistry.get_camera (CameraRegistry.set_state st sn v).2 sn
      = some { cam with state := v } := by
  have hval : ¬(v ≠ "open" ∧ v ≠ "closed") := by
    rcases hv with hv | hv <;> simp [hv]
  have hsome : (CameraRegistry.get_camera st sn).isSome = true := by
    rw [h]; rfl
  unfold CameraRegistry.set_state
  rw [if_neg hval, if_pos hsome]
  show (st.cameras.map fun c => if c.device_sn == sn then { c with state := v } else c).find?
      (fun c => c.device_sn == sn) = _
  rw [find?_map_keyed st.cameras sn (fun c => { c with state := v }) (fun c => rfl)]
  unfold CameraRegistry.get_camera at h
  rw [h]
  rfl

/-- Looking up the serial after update_activity on a present serial returns
the camera with latest_activity replaced. -/
theorem get_camera_after_update_activity (st : RegState) (sn : String) (cam : CameraInfo)
    (h : CameraRegistry.get_camera st sn = some cam) (t : Int) :
    CameraRegistry.get_camera (CameraRegistry.update_activity st sn t) sn
      = some { cam with latest_activity := t } := by
  have hsome : (CameraRegistry.get_camera st sn).isSome = true := by
    rw [h]; rfl
  unfold CameraRegistry.update_activity
  rw [if_pos hsome]
  show (st.cameras.map fun c => if c.device_sn == sn then { c with latest_activity := t } else c).find?
      (fun c => c.device_sn == sn) = _
  rw [find?_map_keyed st.cameras sn (fun c => { c with latest_activity := t }) (fun c => rfl)]
  unfold CameraRegistry.get_camera at h
  rw [h]
  rfl

/-- After set_state(sn, "closed"), no camera listed as "open" carries that
serial: either every matching entry was just set to "closed", or the serial
was never in the registry. -/
theorem set_state_closed_excludes_from_open (st : RegState) (sn : String) :
    ∀ c ∈ CameraRegistry.get_cameras_by_state (CameraRegistry.set_state st sn "closed").2 "open",
      c.device_sn ≠ sn := by
  intro c hc hcsn
  have hval : ¬(("closed" : String) ≠ "open" ∧ ("closed" : String) ≠ "closed") := by simp
  unfold CameraRegistry.set_state at hc
  rw [if_neg hval] at hc
  by_cases hm : (CameraRegistry.get_camera st sn).isSome = true
  · rw [if_pos hm] at hc
    unfold CameraRegistry.get_cameras_by_state at hc
    simp only [CameraRegistry.save, List.mem_filter, List.mem_map] at hc
    obtain ⟨⟨a, _, hac⟩, hopen⟩ := hc
    by_cases ha : (a.device_sn == sn) = true
    · rw [if_pos ha] at hac
      subst hac
      simp at hopen
    · rw [if_neg (by simp [ha])] at hac
      subst hac
      rw [hcsn] at ha
      simp at ha
  · rw [if_neg hm] at hc
    unfold CameraRegistry.get_cameras_by_state at hc
    simp only [List.mem_filter] at hc
    have hnone : CameraRegistry.get_camera st sn = none := by
      cases hfind : CameraRegistry.get_camera st sn with
      | none => rfl
      | some _ => rw [hfind] at hm; simp at hm
    unfold CameraRegistry.get_camera at hnone
    rw [List.find?_eq_none] at hnone
    have := hnone c hc.1
    rw [hcsn] at this
    simp at this

/-- C1 (evaluation at the failing input): one sweep pass over reg0 (CAM1
open, 3900 s stale, timeout 60 min) with the two-entry buffer log0 emits
exactly one motion_stopped webhook, sets CAM1 to closed and empties the
buffer - but the emitted webhook payload is the MotionStoppedEvent with no
event_log field, identical to the payload produced when the buffer is empty:
the pydantic model of events.py lines 36-43 declares no event_log field, so
the event_log keyword passed at state_timeout_checker.py line 144 is dropped
and the alert does not carry the buffered log, contradicting the claim and
tests/test_state_timeout_checker.py line 73. -/
theorem timeout_sweep_alert_drops_event_log :
    ((check_timeouts (fun _ => false) 4000 60 reg0 mh0).2.2.1
        = [{ timestamp := 4000, device_sn := "CAM1", slack_channel := "chan",
             duration_seconds := 3900, latest_activity := 100 }])
    ∧ ((CameraRegistry.get_camera (check_timeouts (fun _ => false) 4000 60 reg0 mh0).1 "CAM1").map
          CameraInfo.state = some "closed")
    ∧ ((check_timeouts (fun _ => false) 4000 60 reg0 mh0).2.1.event_logs "CAM1" = [])
    ∧ ((check_timeouts (fun _ => false) 4000 60 reg0 mh0).2.2.1
        = (check_timeouts (fun _ => false) 4000 60 reg0 mhEmpty).2.2.1) := by
  refine ⟨by decide, by decide, by decide, by decide⟩

/-- Counterexample for C2: on reg0 with CAM1 open, a webhook-send failure
during the close transition is reported to the error sink, yet CAM1's
directory state afterward is "closed", not "open" as the claim states: the
set_state("closed") at state_timeout_checker.py line 130 commits before the
failing send at line 147. -/
theorem transition_failure_state_not_open_cex :
    ((transition_to_closed true 4000 reg0 mh0 "CAM1" 3900).2.2.2
        = [⟨"state_timeout_close", "CAM1", 3900, 3⟩])
    ∧ ((CameraRegistry.get_camera (transition_to_closed true 4000 reg0 mh0 "CAM1" 3900).1
          "CAM1").map CameraInfo.state ≠ some "open")
    ∧ ((CameraRegistry.get_camera (transition_to_closed true 4000 reg0 mh0 "CAM1" 3900).1
          "CAM1").map CameraInfo.state = some "closed") := by
  refine ⟨by decide, by decide, by decide⟩

/-- C2 (amended): for every open device being closed by the timeout sweep,
if the webhook send fails (raises), the failure is reported to the external
error sink and no closed alert is emitted; the state update has already
committed before the send, so the device's directory state is "closed" after
the failed pass, and since the device is no longer listed as "open" the close
is not reattempted on the next sweep pass. -/
theorem transition_failure_reported_state_committed :
    ∀ (now dur : Int) (reg : RegState) (mh : MotionHandlerState) (sn : String)
      (cam : CameraInfo),
      CameraRegistry.get_camera reg sn = some cam →
      ((transition_to_closed true now reg mh sn dur).2.2.2
          = [⟨"state_timeout_close", sn, dur, 3⟩])
      ∧ (transition_to_closed true now reg mh sn dur).2.2.1 = []
      ∧ CameraRegistry.get_camera (transition_to_closed true now reg mh sn dur).1 sn
          = some { cam with state := "closed" }
      ∧ ∀ c ∈ CameraRegistry.get_cameras_by_state
            (transition_to_closed true now reg mh sn dur).1 "open", c.device_sn ≠ sn := by
  intro now dur reg mh sn cam h
  have hstep : transition_to_closed true now reg mh sn dur
      = ((CameraRegistry.set_state reg sn "closed").2,
         (get_and_clear_event_log mh sn).2, [],
         [⟨"state_timeout_close", sn, dur, 3⟩]) := by
    unfold transition_to_closed
    rw [h]
    rfl
  rw [hstep]
  refine ⟨rfl, rfl, ?_, ?_⟩
  · exact get_camera_after_set_state reg sn cam h "closed" (Or.inr rfl)
  · exact set_state_closed_excludes_from_open reg sn

/-- Witness for C2's amended theorem at the concrete input reg0 / CAM1. -/
theorem transition_failure_reported_state_committed_witness :
    ((transition_to_closed true 4000 reg0 mhEmpty "CAM1" 3900).2.2.2
        = [⟨"state_timeout_close", "CAM1", 3900, 3⟩])
    ∧ CameraRegistry.get_camera (transition_to_closed true 4000 reg0 mhEmpty "CAM1" 3900).1
        "CAM1" = some ⟨"CAM1", "chan", 100, "closed"⟩ := by
  have h := transition_failure_reported_state_committed 4000 3900 reg0 mhEmpty "CAM1"
    ⟨"CAM1", "chan", 100, "open"⟩ rfl
  exact ⟨h.1, h.2.2.1⟩

/-- When the serial is present, update_activity rewrites the persisted file
to match the in-memory registry. -/
theorem update_activity_persists (st : RegState) (sn : String) (t : Int)
    (h : (CameraRegistry.get_camera st sn).isSome = true) :
    (CameraRegistry.update_activity st sn t).persisted
      = (CameraRegistry.update_activity st sn t).cameras := by
  unfold CameraRegistry.update_activity
  rw [if_pos h]
  rfl

/-- C3: for a known device in state closed, one motion notification
transitions it to open, emits exactly one opened alert carrying the
destination, the full notification payload, the new state and the activity
time, seeds a fresh one-element log buffer with this event, and persists the
new state and activity timestamp (registry file rewritten to match memory).
The registry operations are the authoritative CameraRegistry embedding; the
handler logic is modelled from the spec since the registry-based
MotionAlarmHandler is absent from the source tree. -/
theorem on_motion_closed_emits_one_opened_alert :
    ∀ (reg : RegState) (mh : MotionHandlerState) (now : Int) (notif : MotionNotification)
      (sn : String) (cam : CameraInfo),
      notif.serialNumber = some sn →
      CameraRegistry.get_camera reg sn = some cam →
      cam.state = "closed" →
      ((on_motion_detected reg mh now notif).2.2
          = [{ timestamp := now, device_sn := sn, slack_channel := cam.slack_channel,
               state := "open", latest_activity := now, raw_event := some notif }])
      ∧ CameraRegistry.get_camera (on_motion_detected reg mh now notif).1 sn
          = some { cam with state := "open", latest_activity := now }
      ∧ (on_motion_detected reg mh now notif).1.persisted
          = (on_motion_detected reg mh now notif).1.cameras
      ∧ (on_motion_detected reg mh now notif).2.1.event_logs sn
          = [⟨now, notif.eventKind, sn⟩] := by
  intro reg mh now notif sn cam hm h hcs
  have hcsb : (cam.state == "closed") = true := by
    rw [hcs]; rfl
  have hopen : CameraRegistry.get_camera (CameraRegistry.set_state reg sn "open").2 sn
      = some { cam with state := "open" } :=
    get_camera_after_set_state reg sn cam h "open" (Or.inl rfl)
  have hsome1 : (CameraRegistry.get_camera (CameraRegistry.set_state reg sn "open").2 sn).isSome
      = true := by
    rw [hopen]; rfl
  have hstep : on_motion_detected reg mh now notif
      = (CameraRegistry.update_activity (CameraRegistry.set_state reg sn "open").2 sn now,
         ⟨fun k => if k = sn then [⟨now, notif.eventKind, sn⟩] else mh.event_logs k⟩,
         [{ timestamp := now, device_sn := sn, slack_channel := cam.slack_channel,
            state := "open", latest_activity := now, raw_event := some notif }]) := by
    simp only [on_motion_detected, hm, h, hcsb, if_true]
  rw [hstep]
  refine ⟨rfl, ?_, ?_, ?_⟩
  · have := get_camera_after_update_activity (CameraRegistry.set_state reg sn "open").2 sn
      { cam with state := "open" } hopen now
    exact this
  · exact update_activity_persists (CameraRegistry.set_state reg sn "open").2 sn now hsome1
  · simp

/-- Witness for C3 at the concrete closed camera CAM2 of regClosed. -/
theorem on_motion_closed_emits_one_opened_alert_witness :
    ((on_motion_detected regClosed mhEmpty 700 notif0).2.2
        = [{ timestamp := 700, device_sn := "CAM2", slack_channel := "ch2",
             state := "open", latest_activity := 700, raw_event := some notif0 }])
    ∧ CameraRegistry.get_camera (on_motion_detected regClosed mhEmpty 700 notif0).1 "CAM2"
        = some ⟨"CAM2", "ch2", 700, "open"⟩
    ∧ (on_motion_detected regClosed mhEmpty 700 notif0).2.1.event_logs "CAM2"
        = [⟨700, "motion detected", "CAM2"⟩] := by
  have h := on_motion_closed_emits_one_opened_alert regClosed mhEmpty 700 notif0 "CAM2"
    ⟨"CAM2", "ch2", 50, "closed"⟩ rfl rfl rfl
  exact ⟨h.1, h.2.1, h.2.2.2⟩

/-- The unconditional mutations of _handle_online_response leave neither a
failure counter nor an offline record for the device. -/
theorem handle_online_mutations_clears (sn : String) (st : HealthState) :
    (DeviceHealthChecker.handle_online_mutations sn st).failure_counts sn = none
    ∧ (DeviceHealthChecker.handle_online_mutations sn st).offline_devices_timestamps sn
        = none := by
  unfold DeviceHealthChecker.handle_online_mutations
  by_cases hrec : (st.offline_devices_timestamps sn).isSome = true
  · rw [if_pos hrec]
    constructor
    · simp [DeviceHealthChecker.save_offline_devices, mapRemove]
    · simp [DeviceHealthChecker.save_offline_devices, mapRemove]
  · rw [if_neg hrec]
    have hnone : st.offline_devices_timestamps sn = none := by
      cases hof : st.offline_devices_timestamps sn with
      | none => rfl
      | some ts => exact absurd (by rw [hof]; rfl) hrec
    exact ⟨by simp [mapRemove], hnone⟩

/-- The battery branch of a successful health check touches only the
battery-cooldown map and emits at most a low-battery alert. -/
theorem send_low_battery_alert_spec (cfg : HealthConfig) (now : Int) (sn slack : String)
    (battery_level : Int) (st : HealthState) :
    (DeviceHealthChecker.send_low_battery_alert cfg now sn slack battery_level st).1.failure_counts
        = st.failure_counts
    ∧ (DeviceHealthChecker.send_low_battery_alert cfg now sn slack battery_level
        st).1.offline_devices_timestamps = st.offline_devices_timestamps
    ∧ ∀ a ∈ (DeviceHealthChecker.send_low_battery_alert cfg now sn slack battery_level st).2,
        a.isLowBattery = true := by
  cases hlast : st.last_battery_alert sn with
  | some last =>
    by_cases hcool : now - last < cfg.battery_cooldown_hours * 3600
    · simp only [DeviceHealthChecker.send_low_battery_alert, hlast]
      rw [if_pos hcool]
      simp [HealthAlert.isLowBattery]
    · simp only [DeviceHealthChecker.send_low_battery_alert, hlast]
      rw [if_neg hcool]
      simp [HealthAlert.isLowBattery]
  | none =>
    simp only [DeviceHealthChecker.send_low_battery_alert, hlast]
    simp [HealthAlert.isLowBattery]

/-- A successful (dict) online response clears the failure counter and the
offline record and emits only low-battery alerts. -/
theorem handle_online_response_spec (cfg : HealthConfig) (now : Int) (sn slack : String)
    (r : Resp) (st : HealthState) :
    (DeviceHealthChecker.handle_online_response cfg now sn slack r st).1.failure_counts sn
        = none
    ∧ (DeviceHealthChecker.handle_online_response cfg now sn slack r
        st).1.offline_devices_timestamps sn = none
    ∧ ∀ a ∈ (DeviceHealthChecker.handle_online_response cfg now sn slack r st).2,
        a.isLowBattery = true := by
  obtain ⟨hc, ho⟩ := handle_online_mutations_clears sn st
  cases hb : r.battery with
  | some battery_level =>
    by_cases hlow : battery_level < cfg.battery_threshold_percent
    · simp only [DeviceHealthChecker.handle_online_response, hb]
      rw [if_pos hlow]
      obtain ⟨hfc, hfo, hal⟩ := send_low_battery_alert_spec cfg now sn slack battery_level
        (DeviceHealthChecker.handle_online_mutations sn st)
      exact ⟨by rw [hfc]; exact hc, by rw [hfo]; exact ho, hal⟩
    · simp only [DeviceHealthChecker.handle_online_response, hb]
      rw [if_neg hlow]
      exact ⟨hc, ho, by simp⟩
  | none =>
    simp only [DeviceHealthChecker.handle_online_response, hb]
    exact ⟨hc, ho, by simp⟩

/-- When the probe exchange dispatches to the online path (the probe
succeeded and, for standalone devices, a battery response arrived), the probe
phase is exactly _handle_online_response on some response. -/
theorem check_probe_online_dispatch (cfg : HealthConfig) (now : Int) (sn slack : String)
    (p : DeviceHealthChecker.ProbeInput) (st : HealthState)
    (hp : p.send_raises = false)
    (hon : (DeviceHealthChecker.is_standalone sn = true
        ∧ (∃ r, p.connect_resp = some r ∧ r.success = true) ∧ ∃ b, p.battery_resp = some b)
      ∨ (DeviceHealthChecker.is_standalone sn = false
        ∧ ∃ r, p.resp = some r ∧ r.success = true)) :
    ∃ r, DeviceHealthChecker.check_camera_health_probe cfg now sn slack p st
      = DeviceHealthChecker.handle_online_response cfg now sn slack r st := by
  unfold DeviceHealthChecker.check_camera_health_probe
  rw [hp]
  rcases hon with ⟨hsa, ⟨r, hr, hru⟩, ⟨b, hbr⟩⟩ | ⟨hsa, r, hr, hru⟩
  · rw [if_neg (by simp), hsa]
    simp only [if_true, hr, hbr, hru]
    exact ⟨b, rfl⟩
  · rw [if_neg (by simp), hsa]
    simp only [Bool.false_eq_true, if_false, hr, hru, if_true]
    exact ⟨r, rfl⟩

/-- C4: for every device, including serial-prefix standalone devices that
need a connection-establishment probe first, a successful liveness probe
within a health-check tick (one not skipped by the offline cooldown gate)
leaves the device with no failure-counter entry, silently removes any
existing offline record, and emits no recovered or offline alert - any alert
emitted on this path is a low-battery alert. -/
theorem successful_probe_clears_failure_state :
    ∀ (cfg : HealthConfig) (now : Int) (sn slack : String)
      (p : DeviceHealthChecker.ProbeInput) (st : HealthState),
      (∀ ts, st.offline_devices_timestamps sn = some ts → 86400 ≤ now - ts) →
      p.send_raises = false →
      ((DeviceHealthChecker.is_standalone sn = true
          ∧ (∃ r, p.connect_resp = some r ∧ r.success = true) ∧ ∃ b, p.battery_resp = some b)
        ∨ (DeviceHealthChecker.is_standalone sn = false
          ∧ ∃ r, p.resp = some r ∧ r.success = true)) →
      ((DeviceHealthChecker.check_camera_health cfg now sn slack p st).1.failure_counts sn
          = none)
      ∧ ((DeviceHealthChecker.check_camera_health cfg now sn slack p
            st).1.offline_devices_timestamps sn = none)
      ∧ ∀ a ∈ (DeviceHealthChecker.check_camera_health cfg now sn slack p st).2,
          a.isLowBattery = true := by
  intro cfg now sn slack p st hgate hp hon
  cases hoff : st.offline_devices_timestamps sn with
  | some last =>
    have hexp : ¬ now - last < 86400 := by
      have := hgate last hoff
      omega
    simp only [DeviceHealthChecker.check_camera_health, hoff]
    rw [if_neg hexp]
    obtain ⟨r, hr⟩ := check_probe_online_dispatch cfg now sn slack p _ hp hon
    rw [hr]
    exact handle_online_response_spec cfg now sn slack r _
  | none =>
    simp only [DeviceHealthChecker.check_camera_health, hoff]
    obtain ⟨r, hr⟩ := check_probe_online_dispatch cfg now sn slack p st hp hon
    rw [hr]
    exact handle_online_response_spec cfg now sn slack r st

/-- Witness for C4: the standalone camera T8B0XYZ of hsW (offline record
expired, counter at threshold) comes back clean after a successful connect
probe and battery fetch, with no offline record and no counter left. -/
theorem successful_probe_clears_failure_state_witness :
    ((DeviceHealthChecker.check_camera_health cfgW 100000 "T8B0XYZ" "ch" pW
        hsW).1.failure_counts "T8B0XYZ" = none)
    ∧ ((DeviceHealthChecker.check_camera_health cfgW 100000 "T8B0XYZ" "ch" pW
        hsW).1.offline_devices_timestamps "T8B0XYZ" = none) := by
  have h := successful_probe_clears_failure_state cfgW 100000 "T8B0XYZ" "ch" pW hsW
    (by
      intro ts hts
      simp only [hsW, if_pos rfl] at hts
      cases hts
      decide)
    rfl
    (Or.inl ⟨by decide, ⟨⟨true, none, none⟩, rfl, rfl⟩, ⟨⟨true, none, some 50⟩, rfl⟩⟩)
  exact ⟨h.1, h.2.1⟩

/-- A failed probe whose new counter value is below the threshold only bumps
the counter and emits nothing. -/
theorem handle_failure_below (cfg : HealthConfig) (now : Int) (sn slack : String)
    (code : Option String) (st : HealthState)
    (h : (st.failure_counts sn).getD 0 + 1 < cfg.failure_threshold) :
    DeviceHealthChecker.handle_failure cfg now sn slack code st
      = (⟨mapSet st.failure_counts sn ((st.failure_counts sn).getD 0 + 1),
          st.offline_devices_timestamps, st.last_battery_alert, st.persisted_offline⟩, []) := by
  simp only [DeviceHealthChecker.handle_failure]
  rw [if_neg (by omega)]

/-- A failed probe reaching the threshold with no offline record emits one
offline alert and stamps a persisted record with the current time. -/
theorem handle_failure_stamp (cfg : HealthConfig) (now : Int) (sn slack : String)
    (code : Option String) (st : HealthState)
    (h : cfg.failure_threshold ≤ (st.failure_counts sn).getD 0 + 1)
    (hrec : st.offline_devices_timestamps sn = none) :
    DeviceHealthChecker.handle_failure cfg now sn slack code st
      = (⟨mapSet st.failure_counts sn ((st.failure_counts sn).getD 0 + 1),
          mapSet st.offline_devices_timestamps sn now,
          st.last_battery_alert,
          mapSet st.offline_devices_timestamps sn now⟩,
         [.cameraOffline sn slack "health_check_failed"]) := by
  simp only [DeviceHealthChecker.handle_failure]
  rw [if_pos h]
  simp only [hrec]
  simp [DeviceHealthChecker.save_offline_devices]

/-- A failed probe at or above the threshold while an offline record exists
bumps the counter and emits nothing (deduplication). -/
theorem handle_failure_dedup (cfg : HealthConfig) (now : Int) (sn slack : String)
    (code : Option String) (st : HealthState) (ts : Int)
    (h : cfg.failure_threshold ≤ (st.failure_counts sn).getD 0 + 1)
    (hrec : st.offline_devices_timestamps sn = some ts) :
    DeviceHealthChecker.handle_failure cfg now sn slack code st
      = (⟨mapSet st.failure_counts sn ((st.failure_counts sn).getD 0 + 1),
          st.offline_devices_timestamps, st.last_battery_alert, st.persisted_offline⟩, []) := by
  simp only [DeviceHealthChecker.handle_failure]
  rw [if_pos h]
  simp only [hrec]

/-- C5: in a run of consecutive probe failures for a device that starts with
no failure counter and no offline record, and with a positive threshold, the
counter after k failures is exactly k, the offline record exists exactly from
the threshold-th failure on and is stamped (and persisted) with the time of
that failure, and the run emits exactly one offline alert - none before the
threshold is reached, and none after the record exists. -/
theorem offline_alert_exactly_once_per_failure_run :
    ∀ (cfg : HealthConfig) (t : Nat → Int) (sn slack : String) (code : Option String)
      (st : HealthState),
      1 ≤ cfg.failure_threshold →
      st.failure_counts sn = none →
      st.offline_devices_timestamps sn = none →
      ∀ k : Nat,
        ((failure_iter cfg t sn slack code st k).1.failure_counts sn
            = if k = 0 then none else some k)
        ∧ ((failure_iter cfg t sn slack code st k).1.offline_devices_timestamps sn
            = if cfg.failure_threshold ≤ k then some (t (cfg.failure_threshold - 1)) else none)
        ∧ ((failure_iter cfg t sn slack code st k).1.persisted_offline sn
            = if cfg.failure_threshold ≤ k then some (t (cfg.failure_threshold - 1))
              else st.persisted_offline sn)
        ∧ ((failure_iter cfg t sn slack code st k).2
            = if cfg.failure_threshold ≤ k
              then [HealthAlert.cameraOffline sn slack "health_check_failed"] else []) := by
  intro cfg t sn slack code st ht h0 h1 k
  induction k with
  | zero =>
    have hth0 : ¬ cfg.failure_threshold ≤ 0 := by omega
    refine ⟨?_, ?_, ?_, ?_⟩ <;> simp [failure_iter, h0, h1, hth0]
  | succ k ih =>
    obtain ⟨ihc, iho, ihp, iha⟩ := ih
    have hgetD : ((failure_iter cfg t sn slack code st k).1.failure_counts sn).getD 0 + 1
        = k + 1 := by
      rw [ihc]
      by_cases hk : k = 0 <;> simp [hk]
    have hiter : failure_iter cfg t sn slack code st (k+1)
        = ((DeviceHealthChecker.handle_failure cfg (t k) sn slack code
              (failure_iter cfg t sn slack code st k).1).1,
           (failure_iter cfg t sn slack code st k).2
             ++ (DeviceHealthChecker.handle_failure cfg (t k) sn slack code
              (failure_iter cfg t sn slack code st k).1).2) := by
      simp [failure_iter]
    rw [hiter]
    by_cases hA : cfg.failure_threshold ≤ k
    · -- the record already exists: dedup, no further alert
      have hrec : (failure_iter cfg t sn slack code st k).1.offline_devices_timestamps sn
          = some (t (cfg.failure_threshold - 1)) := by
        rw [iho, if_pos hA]
      have hth : cfg.failure_threshold
          ≤ ((failure_iter cfg t sn slack code st k).1.failure_counts sn).getD 0 + 1 := by
        rw [hgetD]; omega
      rw [handle_failure_dedup cfg (t k) sn slack code _ _ hth hrec]
      have hk1 : cfg.failure_threshold ≤ k + 1 := by omega
      refine ⟨?_, ?_, ?_, ?_⟩
      · simp [mapSet, hgetD]
      · simp [hrec, hk1]
      · simp [ihp, hA, hk1]
      · simp [iha, hA, hk1]
    · by_cases hB : cfg.failure_threshold ≤ k + 1
      · -- the threshold is reached exactly now: stamp and alert
        have hrec : (failure_iter cfg t sn slack code st k).1.offline_devices_timestamps sn
            = none := by
          rw [iho, if_neg hA]
        have hth : cfg.failure_threshold
            ≤ ((failure_iter cfg t sn slack code st k).1.failure_counts sn).getD 0 + 1 := by
          rw [hgetD]; omega
        rw [handle_failure_stamp cfg (t k) sn slack code _ hth hrec]
        have hidx : cfg.failure_threshold - 1 = k := by omega
        refine ⟨?_, ?_, ?_, ?_⟩
        · simp [mapSet, hgetD]
        · simp [mapSet, hB, hidx]
        · simp [mapSet, hB, hidx]
        · simp [iha, hA, hB]
      · -- still below the threshold: counter only
        have hbelow : ((failure_iter cfg t sn slack code st k).1.failure_counts sn).getD 0 + 1
            < cfg.failure_threshold := by
          rw [hgetD]; omega
        have hrec : (failure_iter cfg t sn slack code st k).1.offline_devices_timestamps sn
            = none := by
          rw [iho, if_neg hA]
        rw [handle_failure_below cfg (t k) sn slack code _ hbelow]
        refine ⟨?_, ?_, ?_, ?_⟩
        · simp [mapSet, hgetD]
        · simp [hrec, hB]
        · simp [ihp, hA, hB]
        · simp [iha, hA, hB]

/-- Witness for C5: threshold 3, five consecutive failures at times 1000,
1001, ..., 1004; exactly one offline alert, record stamped 1002 (the third
failure), counter at 5. -/
theorem offline_alert_exactly_once_per_failure_run_witness :
    ((failure_iter cfgW tW "D1" "ch" (some "timeout") hs0 5).2
        = [HealthAlert.cameraOffline "D1" "ch" "health_check_failed"])
    ∧ ((failure_iter cfgW tW "D1" "ch" (some "timeout") hs0 5).1.offline_devices_timestamps "D1"
        = some 1002)
    ∧ ((failure_iter cfgW tW "D1" "ch" (some "timeout") hs0 5).1.failure_counts "D1"
        = some 5) := by
  have h := offline_alert_exactly_once_per_failure_run cfgW tW "D1" "ch" (some "timeout") hs0
    (by decide) rfl rfl 5
  refine ⟨?_, ?_, ?_⟩
  · have := h.2.2.2
    simpa [cfgW] using this
  · have := h.2.1
    simpa [cfgW, tW] using this
  · have := h.1
    simpa using this

/-- A failed probe preserves the counter-threshold/offline-record invariant:
whenever the new counter reaches the threshold, the same call ensures a
record. -/
theorem HealthInv_handle_failure (cfg : HealthConfig) (now : Int) (sn slack : String)
    (code : Option String) (st : HealthState) (h : HealthInv cfg st) :
    HealthInv cfg (DeviceHealthChecker.handle_failure cfg now sn slack code st).1 := by
  by_cases hth : cfg.failure_threshold ≤ (st.failure_counts sn).getD 0 + 1
  · cases hrec : st.offline_devices_timestamps sn with
    | none =>
      rw [handle_failure_stamp cfg now sn slack code st hth hrec]
      intro sn' c' hc' ht'
      by_cases hsn : sn' = sn
      · subst hsn
        simp [mapSet]
      · simp only [mapSet] at hc' ⊢
        rw [if_neg hsn] at hc' ⊢
        exact h sn' c' hc' ht'
    | some ts =>
      rw [handle_failure_dedup cfg now sn slack code st ts hth hrec]
      intro sn' c' hc' ht'
      by_cases hsn : sn' = sn
      · subst hsn
        rw [hrec]
        rfl
      · simp only [mapSet] at hc'
        rw [if_neg hsn] at hc'
        exact h sn' c' hc' ht'
  · rw [handle_failure_below cfg now sn slack code st (by omega)]
    intro sn' c' hc' ht'
    by_cases hsn : sn' = sn
    · subst hsn
      simp only [mapSet, if_pos rfl] at hc'
      cases hc'
      omega
    · simp only [mapSet] at hc'
      rw [if_neg hsn] at hc'
      exact h sn' c' hc' ht'

/-- The success-path mutations preserve the invariant: the counter and the
record for the device are removed together. -/
theorem HealthInv_online_mutations (cfg : HealthConfig) (sn : String) (st : HealthState)
    (h : HealthInv cfg st) :
    HealthInv cfg (DeviceHealthChecker.handle_online_mutations sn st) := by
  unfold DeviceHealthChecker.handle_online_mutations
  by_cases hrec : (st.offline_devices_timestamps sn).isSome = true
  · rw [if_pos hrec]
    intro sn' c' hc' ht'
    simp only [DeviceHealthChecker.save_offline_devices, mapRemove] at hc' ⊢
    by_cases hsn : sn' = sn
    · rw [if_pos hsn] at hc'
      cases hc'
    · rw [if_neg hsn] at hc' ⊢
      exact h sn' c' hc' ht'
  · rw [if_neg hrec]
    intro sn' c' hc' ht'
    simp only [mapRemove] at hc'
    by_cases hsn : sn' = sn
    · rw [if_pos hsn] at hc'
      cases hc'
    · rw [if_neg hsn] at hc'
      exact h sn' c' hc' ht'

/-- The battery-alert branch never touches counters or records, so it
preserves the invariant. -/
theorem HealthInv_send_low_battery (cfg : HealthConfig) (now : Int) (sn slack : String)
    (battery_level : Int) (st : HealthState) (h : HealthInv cfg st) :
    HealthInv cfg (DeviceHealthChecker.send_low_battery_alert cfg now sn slack battery_level
      st).1 := by
  obtain ⟨hfc, hfo, _⟩ := send_low_battery_alert_spec cfg now sn slack battery_level st
  intro sn' c' hc' ht'
  rw [hfc] at hc'
  rw [hfo]
  exact h sn' c' hc' ht'

/-- A successful online response preserves the invariant. -/
theorem HealthInv_online_response (cfg : HealthConfig) (now : Int) (sn slack : String)
    (r : Resp) (st : HealthState) (h : HealthInv cfg st) :
    HealthInv cfg (DeviceHealthChecker.handle_online_response cfg now sn slack r st).1 := by
  have hm := HealthInv_online_mutations cfg sn st h
  cases hb : r.battery with
  | some battery_level =>
    by_cases hlow : battery_level < cfg.battery_threshold_percent
    · simp only [DeviceHealthChecker.handle_online_response, hb]
      rw [if_pos hlow]
      exact HealthInv_send_low_battery cfg now sn slack battery_level _ hm
    · simp only [DeviceHealthChecker.handle_online_response, hb]
      rw [if_neg hlow]
      exact hm
  | none =>
    simp only [DeviceHealthChecker.handle_online_response, hb]
    exact hm

/-- The probe phase of a tick preserves the invariant on every branch. -/
theorem HealthInv_probe (cfg : HealthConfig) (now : Int) (sn slack : String)
    (p : DeviceHealthChecker.ProbeInput) (st : HealthState) (h : HealthInv cfg st) :
    HealthInv cfg (DeviceHealthChecker.check_camera_health_probe cfg now sn slack p st).1 := by
  cases hsr : p.send_raises with
  | true =>
    simp only [DeviceHealthChecker.check_camera_health_probe, hsr, if_true]
    exact HealthInv_handle_failure cfg now sn slack _ st h
  | false =>
    cases hsa : DeviceHealthChecker.is_standalone sn with
    | true =>
      cases hcr : p.connect_resp with
      | some r =>
        cases hrs : r.success with
        | true =>
          cases hbr : p.battery_resp with
          | some b =>
            simp only [DeviceHealthChecker.check_camera_health_probe, hsr, hsa, hcr, hrs, hbr]
            simp only [Bool.false_eq_true, if_false, if_true]
            exact HealthInv_online_response cfg now sn slack b st h
          | none =>
            simp only [DeviceHealthChecker.check_camera_health_probe, hsr, hsa, hcr, hrs, hbr]
            simp only [Bool.false_eq_true, if_false, if_true]
            exact HealthInv_handle_failure cfg now sn slack _ _
              (HealthInv_online_mutations cfg sn st h)
        | false =>
          simp only [DeviceHealthChecker.check_camera_health_probe, hsr, hsa, hcr, hrs]
          simp only [Bool.false_eq_true, if_false, if_true]
          exact HealthInv_handle_failure cfg now sn slack _ st h
      | none =>
        simp only [DeviceHealthChecker.check_camera_health_probe, hsr, hsa, hcr]
        simp only [Bool.false_eq_true, if_false, if_true]
        exact HealthInv_handle_failure cfg now sn slack _ st h
    | false =>
      cases hr : p.resp with
      | some r =>
        cases hrs : r.success with
        | true =>
          simp only [DeviceHealthChecker.check_camera_health_probe, hsr, hsa, hr, hrs]
          simp only [Bool.false_eq_true, if_false, if_true]
          exact HealthInv_online_response cfg now sn slack r st h
        | false =>
          simp only [DeviceHealthChecker.check_camera_health_probe, hsr, hsa, hr, hrs]
          simp only [Bool.false_eq_true, if_false]
          exact HealthInv_handle_failure cfg now sn slack _ st h
      | none =>
        simp only [DeviceHealthChecker.check_camera_health_probe, hsr, hsa, hr]
        simp only [Bool.false_eq_true, if_false]
        exact HealthInv_handle_failure cfg now sn slack _ st h

/-- A full _check_camera_health call (including the cooldown gate and its
expiry branch) preserves the invariant. -/
theorem HealthInv_check (cfg : HealthConfig) (now : Int) (sn slack : String)
    (p : DeviceHealthChecker.ProbeInput) (st : HealthState) (h : HealthInv cfg st) :
    HealthInv cfg (DeviceHealthChecker.check_camera_health cfg now sn slack p st).1 := by
  cases hoff : st.offline_devices_timestamps sn with
  | none =>
    simp only [DeviceHealthChecker.check_camera_health, hoff]
    exact HealthInv_probe cfg now sn slack p st h
  | some last =>
    by_cases hcd : now - last < 86400
    · simp only [DeviceHealthChecker.check_camera_health, hoff]
      rw [if_pos hcd]
      exact h
    · simp only [DeviceHealthChecker.check_camera_health, hoff]
      rw [if_neg hcd]
      refine HealthInv_probe cfg now sn slack p _ ?_
      intro sn' c' hc' ht'
      simp only [DeviceHealthChecker.save_offline_devices, mapRemove] at hc' ⊢
      by_cases hsn : sn' = sn
      · rw [if_pos hsn] at hc'
        cases hc'
      · rw [if_neg hsn] at hc' ⊢
        exact h sn' c' hc' ht'

/-- C6: in every state of the health monitor reachable from construction by
any sequence of check operations (probe success, probe failure, cooldown
expiry are all branches of _check_camera_health), a failure counter that is
present and at least the configured threshold implies an offline record for
that device. -/
theorem counter_at_threshold_implies_offline_record :
    ∀ (cfg : HealthConfig) (st : HealthState),
      DeviceHealthChecker.Reachable cfg st → HealthInv cfg st := by
  intro cfg st h
  induction h with
  | init records lb =>
    intro sn c hc ht
    cases hc
  | step st now sn slack p hst ih =>
    exact HealthInv_check cfg now sn slack p st ih

/-- Witness for C6: the invariant holds in the concrete state reached from a
fresh monitor after one failing probe of device D1. -/
theorem counter_at_threshold_implies_offline_record_witness :
    HealthInv cfgW
      (DeviceHealthChecker.check_camera_health cfgW 0 "D1" "ch" ⟨none, none, none, true⟩
        hs0).1 := by
  exact counter_at_threshold_implies_offline_record cfgW _
    (DeviceHealthChecker.Reachable.step hs0 0 "D1" "ch" ⟨none, none, none, true⟩
      (DeviceHealthChecker.Reachable.init (fun _ => none) (fun _ => none)))

end EufySecurity
